import Mathlib

/-!
# Verification of the Kansas sticky-session reverse proxy

Shallow embedding of the core of `alexmv/kansas` (a reverse proxy that
routes long-poll event-queue requests to Tornado-like backend shards by
queue id).  Rust strings and byte buffers are modelled as `List Nat`
(their byte sequences); `form_urlencoded`'s final lossy UTF-8 step is
kept at the byte level, which agrees with string-level comparison on all
ASCII data (the only data the proxy itself ever compares against:
`"queue_id"` and header-validated ASCII queue ids).

Embedded modules:
* `state.rs`   — `PeekBody`, `get_port`, `choose_backend`, `store_backend`
* `health.rs`  — `Healthiness`, `update_health` and the probe call site
* `handler.rs` — `append_forwarded_for`, `forward_request_to_backend`
                 header construction, error dispatch of `MainService::call`
* `error_response.rs` — `bad_queue`, `bad_gateway`
* `configuration.rs`  — pool construction from config (health cells)
-/

namespace Kansas

/-- Rust strings / byte buffers as byte sequences. -/
abbrev Str := List Nat

/-- Embed an ASCII Lean string literal as its byte sequence (for ASCII,
code points and UTF-8 bytes coincide). -/
def str (s : String) : Str := s.data.map Char.toNat

/-- Decimal rendering of a `u16`/number, as in Rust `format!("{}", n)`. -/
def natStr (n : Nat) : Str := str (toString n)

/-! ## HTTP vocabulary -/

/-- `hyper::Method` (the standard methods; `Extension` covers the rest,
carrying the method name bytes). -/
inductive Method where
  | GET | DELETE | POST | PUT | HEAD | OPTIONS | CONNECT | PATCH | TRACE
  | Extension (name : Str)
  deriving DecidableEq, Repr

/-- `Display` for `hyper::Method` (prints the method name). -/
def methodStr : Method → Str
  | .GET => str "GET"
  | .DELETE => str "DELETE"
  | .POST => str "POST"
  | .PUT => str "PUT"
  | .HEAD => str "HEAD"
  | .OPTIONS => str "OPTIONS"
  | .CONNECT => str "CONNECT"
  | .PATCH => str "PATCH"
  | .TRACE => str "TRACE"
  | .Extension name => name

/-- `StatusCode::is_success`: 2xx. -/
def is_success (s : Nat) : Bool := 200 ≤ s && s < 300

/-- `StatusCode::is_client_error`: 4xx. -/
def is_client_error (s : Nat) : Bool := 400 ≤ s && s < 500

/-- `http::HeaderValue::to_str`: succeeds iff every byte is visible
ASCII (32–126) or horizontal tab. -/
def headerToStr (v : Str) : Option Str :=
  if v.all (fun b => (32 ≤ b && b < 127) || b == 9) then some v else none

/-- `HeaderMap::get`: first header entry with the given (lowercase) name. -/
def headerGet (headers : List (Str × Str)) (name : Str) : Option Str :=
  (headers.find? (fun p => p.1 == name)).map (·.2)

/-- All values carried for one header name, in order. -/
def headerValues (headers : List (Str × Str)) (name : Str) : List Str :=
  (headers.filter (fun p => p.1 == name)).map (·.2)

/-! ## `url::form_urlencoded::parse` -/

/-- `replace_plus`: `b'+'` becomes `b' '`. -/
def replacePlus (l : Str) : Str := l.map (fun b => if b == 43 then 32 else b)

/-- Value of an ASCII hex digit. -/
def hexVal (b : Nat) : Option Nat :=
  if 48 ≤ b && b ≤ 57 then some (b - 48)
  else if 65 ≤ b && b ≤ 70 then some (b - 55)
  else if 97 ≤ b && b ≤ 102 then some (b - 87)
  else none

/-- `percent_encoding::percent_decode`: `%XY` with two hex digits decodes
to a byte; a `%` not followed by two hex digits is passed through
literally (and decoding resumes at the next byte). -/
def percentDecodeAux : Nat → Str → Str
  | _, [] => []
  | 0, l => l
  | fuel + 1, 37 :: h :: l :: rest =>
    match hexVal h, hexVal l with
    | some hi, some lo => (16 * hi + lo) :: percentDecodeAux fuel rest
    | _, _ => 37 :: percentDecodeAux fuel (h :: l :: rest)
  | fuel + 1, b :: rest => b :: percentDecodeAux fuel rest

def percentDecode (l : Str) : Str := percentDecodeAux l.length l

/-- Decode one form component: plus-to-space then percent-decode
(the lossy UTF-8 step is kept at the byte level). -/
def formDecode (l : Str) : Str := percentDecode (replacePlus l)

/-- Split one `&`-separated sequence at the first `=` into name and
value (missing `=` gives an empty value). -/
def splitEq (seq : Str) : Str × Str :=
  match seq.dropWhile (fun b => !(b == 61)) with
  | [] => (seq.takeWhile (fun b => !(b == 61)), [])
  | _ :: v => (seq.takeWhile (fun b => !(b == 61)), v)

/-- `form_urlencoded::parse`: split on `&`, skip empty sequences, split
each at the first `=`, decode both components. -/
def formUrlencodedParse (bytes : Str) : List (Str × Str) :=
  ((bytes.splitOn 38).filter (fun seq => !seq.isEmpty)).map
    (fun seq => (formDecode (splitEq seq).1, formDecode (splitEq seq).2))

/-! ## `u16::from_str` -/

/-- Digits of a `u16` candidate after stripping an optional leading `+`. -/
def stripPlus (s : Str) : Str :=
  match s with
  | 43 :: rest => rest
  | _ => s

/-- Rust `str::parse::<u16>`: optional leading `+`, then a nonempty run
of decimal digits, value at most 65535; anything else fails. -/
def parseU16 (s : Str) : Option Nat :=
  let digits := stripPlus s
  if digits.isEmpty then none
  else if digits.all (fun b => 48 ≤ b && b ≤ 57) then
    let v := digits.foldl (fun acc b => acc * 10 + (b - 48)) 0
    if v < 65536 then some v else none
  else none

/-! ## Routing map (`DashMap<String, u16>`) as an association list -/

/-- `DashMap::get`. -/
def mapLookup (m : List (Str × Nat)) (k : Str) : Option Nat :=
  (m.find? (fun p => p.1 == k)).map (·.2)

/-- Key membership. -/
def mapContains (m : List (Str × Nat)) (k : Str) : Bool :=
  m.any (fun p => p.1 == k)

/-- `DashMap::remove` of an existing key (keys are unique in a `DashMap`;
on the association list we drop every entry with the key). -/
def mapErase (m : List (Str × Nat)) (k : Str) : List (Str × Nat) :=
  m.filter (fun p => !(p.1 == k))

/-- `DashMap::insert` (overwrite). -/
def mapInsert (m : List (Str × Nat)) (k : Str) (v : Nat) : List (Str × Nat) :=
  (k, v) :: mapErase m k

/-! ## Data model: health, requests, pool -/

/-- `health.rs` `Healthiness`. -/
inductive Healthiness where
  | Healthy
  | Unresponsive (status : Option Nat)
  deriving DecidableEq, Repr

instance {ε α : Type} [DecidableEq ε] [DecidableEq α] : DecidableEq (Except ε α) :=
  fun a b =>
  match a, b with
  | .error u, .error v =>
    if h : u = v then .isTrue (by rw [h]) else .isFalse (by simp [h])
  | .error _, .ok _ => .isFalse (by simp)
  | .ok _, .error _ => .isFalse (by simp)
  | .ok s, .ok t =>
    if h : s = t then .isTrue (by rw [h]) else .isFalse (by simp [h])

/-- A `hyper::Body` on the request path: either a stream that will yield
exactly these bytes, or one whose drain fails. -/
abbrev Body := Except Unit Str

/-- An incoming `hyper::Request<Body>`: method, URI path, raw URI query
string, headers (lowercase names) and body. -/
structure Request where
  method : Method
  path : Str
  query : Option Str
  headers : List (Str × Str)
  body : Body
  deriving DecidableEq, Repr

/-- A `hyper::Response` as far as the proxy inspects it: status and
headers (the pass-through body is irrelevant to the routing map). -/
structure BackendResponse where
  status : Nat
  headers : List (Str × Str)
  deriving DecidableEq, Repr

/-- Snapshot of `handler.rs` `BackendPool::addresses`: backend address to
the current value of its health cell. -/
structure BackendPool where
  addresses : List (Str × Healthiness)
  deriving DecidableEq, Repr

/-- Health-cell lookup in the pool (`pool.addresses.get`). -/
def poolLookup (pool : BackendPool) (addr : Str) : Option Healthiness :=
  (pool.addresses.find? (fun p => p.1 == addr)).map (·.2)

/-! ## `state.rs`: PeekBody, get_port, choose_backend, store_backend -/

/-- `state.rs` `BadBackendError`. -/
inductive BadBackendError where
  | BadRequest (msg : Str)
  | UnhealthyHost (addr : Str)
  | UnknownHost (addr : Str)
  | UnknownQueue (q : Str)
  deriving DecidableEq, Repr

/-- `PeekBody::new`: drain the body into a buffer.  On success returns
the drained bytes together with the now-exhausted body; on failure the
body is left unusable. -/
def peekBodyNew (b : Body) : Except Unit (Str × Body) :=
  match b with
  | .error _ => .error ()
  | .ok bytes => .ok (bytes, .ok [])

/-- `Drop for PeekBody`: stuff the drained bytes back into the request
body (`*self.body = Body::from(mem::take(&mut self.bytes))`). -/
def peekBodyDrop (bytes : Str) (_b : Body) : Body := .ok bytes

/-- Common tail of `get_port`'s else-branch: find the first form pair
whose key is `queue_id`, then look its value up in the routing map. -/
def findQueuePort (queue_map : List (Str × Nat)) (bytes : Str) :
    Except BadBackendError Nat :=
  match (formUrlencodedParse bytes).find? (fun pair => pair.1 == str "queue_id") with
  | none => .error (.UnknownQueue (str "(missing)"))
  | some pair =>
    match mapLookup queue_map pair.2 with
    | none => .error (.UnknownQueue pair.2)
    | some port => .ok port

/-- `state.rs` `get_port`.  Returns the resolved port (or error) together
with the request as it stands afterwards (the body may have been peeked
and restored). -/
def get_port (queue_map : List (Str × Nat)) (request : Request) :
    Except BadBackendError Nat × Request :=
  if request.path == str "/api/v1/events/internal" then
    match headerGet request.headers (str "x-tornado-shard") with
    | none => (.error (.BadRequest (str "No x-tornado-shard header")), request)
    | some port_header =>
      match headerToStr port_header with
      | none => (.error (.BadRequest (str "Cannot convert header to string")), request)
      | some port_str =>
        match parseU16 port_str with
        | none => (.error (.BadRequest (str "Failed to parse port as int")), request)
        | some port => (.ok port, request)
  else
    match request.method with
    | .DELETE =>
      match peekBodyNew request.body with
      | .error _ =>
        (.error (.BadRequest (str "Failed to read request body")),
         { request with body := .error () })
      | .ok (bytes, drained) =>
        (findQueuePort queue_map bytes,
         { request with body := peekBodyDrop bytes drained })
    | .GET =>
      match request.query with
      | none => (.error (.BadRequest (str "No query string")), request)
      | some q => (findQueuePort queue_map q, request)
    | m =>
      (.error (.BadRequest (str "Unknown method " ++ methodStr m)), request)

/-- `state.rs` `choose_backend`: resolve the port, form
`"127.0.0.1:<port>"`, gate on the pool's health cell. -/
def choose_backend (pool : BackendPool) (queue_map : List (Str × Nat))
    (request : Request) : Except BadBackendError (Nat × Str) × Request :=
  match get_port queue_map request with
  | (.error e, request') => (.error e, request')
  | (.ok port, request') =>
    let backend := str "127.0.0.1:" ++ natStr port
    match poolLookup pool backend with
    | none => (.error (.UnknownHost backend), request')
    | some health =>
      if !(health == Healthiness.Healthy) then
        (.error (.UnhealthyHost backend), request')
      else
        (.ok (port, backend), request')

/-- `state.rs` `store_backend`.  `none` models the panic of
`queue_map.remove(queue_id).unwrap()` on a missing key; `some m` is a
normal return with the routing map now being `m`. -/
def store_backend (queue_map : List (Str × Nat)) (method : Method)
    (resp : BackendResponse) (port : Nat) : Option (List (Str × Nat)) :=
  if is_success resp.status then
    match headerGet resp.headers (str "x-tornado-queue-id") with
    | none => some queue_map
    | some queue_header =>
      match headerToStr queue_header with
      | none => some queue_map
      | some queue_id =>
        if method == Method.DELETE then
          if mapContains queue_map queue_id then
            some (mapErase queue_map queue_id)
          else
            none
        else
          some (mapInsert queue_map queue_id port)
  else
    some queue_map

/-! ## `health.rs`: the health-update policy and its call sites -/

/-- The outcome of one upstream call as `update_health` inspects it:
`Err` is a transport error, `Ok status` a response with that status. -/
abbrev CallResult := Except Unit Nat

/-- `health.rs` `update_health`.  `some h` means the candidate `h` is
stored into the cell (with the info log `Backend health change for
<address>: <new state>`); `none` means the cell is left untouched —
either because of the early `return` on a 4xx in non-strict mode, or
because the candidate equals the cell's current value. -/
def update_health (result : CallResult) (current : Healthiness)
    (strict : Bool) : Option Healthiness :=
  let candidate : Option Healthiness :=
    match result with
    | .error _ => some (.Unresponsive none)
    | .ok status =>
      if is_success status then some .Healthy
      else if is_client_error status && !strict then none
      else some (.Unresponsive (some status))
  match candidate with
  | none => none
  | some c => if !(current == c) then some c else none

/-- The forwarder's call site (`handler.rs`,
`forward_request_to_backend`): `update_health(..., false)`. -/
def request_path_health_update (result : CallResult) (current : Healthiness) :
    Option Healthiness :=
  update_health result current false

/-- The probe loop's call site (`health.rs`,
`check_server_health_once`): `update_health(..., true)`. -/
def probe_health_update (result : CallResult) (current : Healthiness) :
    Option Healthiness :=
  update_health result current true

/-! ## `handler.rs`: client IP, x-forwarded-for, backend request -/

/-- `std::net::IpAddr` (IPv6 as its eight 16-bit segments). -/
inductive IpAddr where
  | V4 (a b c d : Nat)
  | V6 (s0 s1 s2 s3 s4 s5 s6 s7 : Nat)
  deriving DecidableEq, Repr

/-- `Display` for `Ipv4Addr`: dotted decimal. -/
def ipv4String (a b c d : Nat) : Str :=
  natStr a ++ str "." ++ natStr b ++ str "." ++ natStr c ++ str "." ++ natStr d

/-- `Ipv6Addr::to_ipv4`: converts IPv4-compatible (`::a.b.c.d`) and
IPv4-mapped (`::ffff:a.b.c.d`) addresses, i.e. segments
`[0,0,0,0,0, 0 | 0xffff, ab, cd]`. -/
def v6ToIpv4 (segs : List Nat) : Option (Nat × Nat × Nat × Nat) :=
  match segs with
  | [0, 0, 0, 0, 0, g, ab, cd] =>
    if g == 0 || g == 65535 then
      some (ab / 256, ab % 256, cd / 256, cd % 256)
    else none
  | _ => none

/-- `Ipv6Addr::to_ipv4_mapped`: only `::ffff:a.b.c.d`. -/
def v6ToIpv4Mapped (segs : List Nat) : Option (Nat × Nat × Nat × Nat) :=
  match segs with
  | [0, 0, 0, 0, 0, 65535, ab, cd] =>
    some (ab / 256, ab % 256, cd / 256, cd % 256)
  | _ => none

/-- One segment in lowercase hex without leading zeros (`{:x}`). -/
def hexStr (n : Nat) : Str := str (String.mk (Nat.toDigits 16 n))

/-- `fmt_subslice`: hex segments joined by `:`. -/
def fmtSegs (segs : List Nat) : Str :=
  ((segs.map hexStr).intersperse (str ":")).flatten

/-- The longest run of zero segments, as `(start, length)` — the scan of
`Display for Ipv6Addr` (a later run replaces the recorded one only when
strictly longer). -/
def longestZeroRun (segs : List Nat) : Nat × Nat :=
  (segs.enum.foldl
    (fun (acc : (Nat × Nat) × (Nat × Nat)) p =>
      let longest := acc.1
      let current := acc.2
      if p.2 == 0 then
        let current := if current.2 == 0 then (p.1, 1) else (current.1, current.2 + 1)
        if current.2 > longest.2 then (current, current) else (longest, current)
      else (longest, (0, 0)))
    ((0, 0), (0, 0))).1

/-- `Display` for `Ipv6Addr`: IPv4-mapped addresses print as
`::ffff:a.b.c.d`; otherwise the longest zero run of length at least two
is compressed to `::`. -/
def ipv6String (segs : List Nat) : Str :=
  match v6ToIpv4Mapped segs with
  | some (a, b, c, d) => str "::ffff:" ++ ipv4String a b c d
  | none =>
    let zeroes := longestZeroRun segs
    if zeroes.2 > 1 then
      fmtSegs (segs.take zeroes.1) ++ str "::" ++ fmtSegs (segs.drop (zeroes.1 + zeroes.2))
    else
      fmtSegs segs

/-- The client-IP string of `forward_request_to_backend`: an IPv4 peer
prints dotted; an IPv6 peer is normalized through `to_ipv4` (IPv4-mapped
*or* IPv4-compatible) when possible, else printed as IPv6. -/
def clientIpString : IpAddr → Str
  | .V4 a b c d => ipv4String a b c d
  | .V6 s0 s1 s2 s3 s4 s5 s6 s7 =>
    match v6ToIpv4 [s0, s1, s2, s3, s4, s5, s6, s7] with
    | some (a, b, c, d) => ipv4String a b c d
    | none => ipv6String [s0, s1, s2, s3, s4, s5, s6, s7]

/-- `handler.rs` `append_forwarded_for`: combine an existing
`x-forwarded-for` value (`to_str().unwrap_or("")`) with the client IP. -/
def append_forwarded_for (existing : Option Str) (client_ip : Str) : Str :=
  match existing with
  | some v => ((headerToStr v).getD []) ++ str ", " ++ client_ip
  | none => client_ip

/-- `request.uri().path_and_query()`: the path followed by `?query` when
a query string is present. -/
def pathAndQuery (request : Request) : Str :=
  request.path ++ (match request.query with
    | none => []
    | some q => str "?" ++ q)

/-- The request `forward_request_to_backend` sends upstream. -/
structure OutRequest where
  scheme : Str
  authority : Str
  pathAndQuery : Str
  method : Method
  headers : List (Str × Str)
  body : Body
  deriving DecidableEq, Repr

/-- The `backend_request` built by `handler.rs`
`forward_request_to_backend` (lines 103–130): scheme `http`, authority
the chosen backend, path-and-query verbatim; every original header is
copied by the builder fold (`Builder::header` *appends*), then one more
`x-forwarded-for` header is appended; method and body are carried over. -/
def build_backend_request (backend_address : Str) (request : Request)
    (client_address : IpAddr) : OutRequest :=
  let ip := clientIpString client_address
  { scheme := str "http",
    authority := backend_address,
    pathAndQuery := pathAndQuery request,
    method := request.method,
    headers := request.headers ++
      [(str "x-forwarded-for",
        append_forwarded_for (headerGet request.headers (str "x-forwarded-for")) ip)],
    body := request.body }

/-! ## `error_response.rs` and the error dispatch of `MainService::call` -/

/-- A response body the proxy itself constructs.  The serialized JSON
text of `bad_queue` is modelled as its field list in source order (as a
JSON value the object is order-independent; serde_json's default map
sorts the keys when serializing). -/
inductive RespBody where
  | empty
  | json (fields : List (Str × Str))
  deriving DecidableEq, Repr

/-- A response the proxy itself constructs. -/
structure OutResponse where
  status : Nat
  headers : List (Str × Str)
  body : RespBody
  deriving DecidableEq, Repr

/-- `error_response.rs` `bad_queue`. -/
def bad_queue (q : Str) : OutResponse :=
  { status := 400,
    headers := [(str "Content-Type", str "application/json")],
    body := .json
      [(str "result", str "error"),
       (str "msg", str "Bad event queue_id: " ++ q),
       (str "queue_id", q),
       (str "code", str "BAD_EVENT_QUEUE_ID")] }

/-- `error_response.rs` `bad_gateway`. -/
def bad_gateway : OutResponse :=
  { status := 502, headers := [], body := .empty }

/-- Whether an error is the `UnknownQueue` variant. -/
def isUnknownQueue : BadBackendError → Bool
  | .UnknownQueue _ => true
  | _ => false

/-- The error arm of `MainService::call` (`handler.rs` lines 76–80):
`UnknownQueue(q)` answers with `bad_queue(q)`; every other
`BadBackendError` is logged (`log_error`) and answered with
`bad_gateway()`. -/
def backend_error_response (e : BadBackendError) : OutResponse :=
  match e with
  | .UnknownQueue q => bad_queue q
  | _ => bad_gateway

/-! ## `configuration.rs`: building the pool from the configuration -/

/-- `From<BackendPoolConfig> for BackendPool`: every configured address
gets a fresh health cell holding `Healthiness::Healthy`. -/
def pool_from_config (addresses : List Str) : BackendPool :=
  ⟨addresses.map (fun address => (address, Healthiness.Healthy))⟩

/-! ## Claim-side vocabulary -/

/-- The bytes the resolver searches for a `queue_id` pair on the
existing-queue path: the peeked body for `DELETE` (when the drain
succeeds), the raw URI query string for `GET`, nothing otherwise. -/
def extractedBytes (req : Request) : Option Str :=
  match req.method with
  | .DELETE => match req.body with
    | .ok b => some b
    | .error _ => none
  | .GET => req.query
  | _ => none

/-- The value of the first URL-encoded form pair whose key is exactly
`queue_id`. -/
def firstQueueId (bytes : Str) : Option Str :=
  ((formUrlencodedParse bytes).find? (fun pair => pair.1 == str "queue_id")).map (·.2)

/-! ## Helper lemmas -/

theorem parseU16_lt (s : Str) (p : Nat) (h : parseU16 s = some p) : p < 65536 := by
  simp only [parseU16] at h
  split at h
  · simp at h
  · split at h
    · split at h
      · simp only [Option.some.injEq] at h
        omega
      · simp at h
    · simp at h

theorem findQueuePort_eq_of_firstQueueId_none (qm : List (Str × Nat)) (bytes : Str)
    (h : firstQueueId bytes = none) :
    findQueuePort qm bytes = .error (.UnknownQueue (str "(missing)")) := by
  unfold findQueuePort
  rcases hf : (formUrlencodedParse bytes).find? (fun pair => pair.1 == str "queue_id") with _ | pair
  · rw [hf]
  · rw [firstQueueId, hf] at h
    simp at h

theorem findQueuePort_eq_of_firstQueueId_some (qm : List (Str × Nat)) (bytes : Str)
    (qid : Str) (h : firstQueueId bytes = some qid) :
    findQueuePort qm bytes =
      (match mapLookup qm qid with
       | none => .error (.UnknownQueue qid)
       | some port => .ok port) := by
  unfold findQueuePort
  rcases hf : (formUrlencodedParse bytes).find? (fun pair => pair.1 == str "queue_id") with _ | pair
  · rw [firstQueueId, hf] at h
    simp at h
  · rw [firstQueueId, hf] at h
    simp at h
    rw [hf]
    subst h
    rfl

theorem get_port_fst_existing (qm : List (Str × Nat)) (req : Request)
    (hp : req.path ≠ str "/api/v1/events/internal") (bytes : Str)
    (hb : extractedBytes req = some bytes) :
    get_port qm req = (findQueuePort qm bytes,
      if req.method = .DELETE then { req with body := .ok bytes } else req) := by
  obtain ⟨method, path, query, headers, body⟩ := req
  simp only at hp hb ⊢
  have hpb : (path == str "/api/v1/events/internal") = false := by
    simpa using hp
  unfold get_port
  simp only [hpb, Bool.false_eq_true, if_false]
  unfold extractedBytes at hb
  cases method with
  | GET =>
    cases query with
    | none => simp at hb
    | some q =>
      simp only [Option.some.injEq] at hb
      subst hb
      simp
  | DELETE =>
    cases body with
    | error u => simp at hb
    | ok bs =>
      simp only [Option.some.injEq] at hb
      subst hb
      simp [peekBodyNew, peekBodyDrop]
  | POST => simp at hb
  | PUT => simp at hb
  | HEAD => simp at hb
  | OPTIONS => simp at hb
  | CONNECT => simp at hb
  | PATCH => simp at hb
  | TRACE => simp at hb
  | Extension name => simp at hb

theorem get_port_fst_unknown_method (qm : List (Str × Nat)) (req : Request)
    (hp : req.path ≠ str "/api/v1/events/internal")
    (hg : req.method ≠ .GET) (hd : req.method ≠ .DELETE) :
    (get_port qm req).1 =
      .error (.BadRequest (str "Unknown method " ++ methodStr req.method)) := by
  obtain ⟨method, path, query, headers, body⟩ := req
  simp only at hp hg hd ⊢
  have hpb : (path == str "/api/v1/events/internal") = false := by
    simpa using hp
  unfold get_port
  cases method with
  | GET => exact absurd rfl hg
  | DELETE => exact absurd rfl hd
  | POST => simp [hpb]
  | PUT => simp [hpb]
  | HEAD => simp [hpb]
  | OPTIONS => simp [hpb]
  | CONNECT => simp [hpb]
  | PATCH => simp [hpb]
  | TRACE => simp [hpb]
  | Extension name => simp [hpb]

theorem choose_backend_fst_of_error (pool : BackendPool) (qm : List (Str × Nat))
    (req : Request) (e : BadBackendError) (h : (get_port qm req).1 = .error e) :
    (choose_backend pool qm req).1 = .error e := by
  unfold choose_backend
  rcases hg : get_port qm req with ⟨r, req'⟩
  rw [hg] at h
  simp only at h
  rw [h]

theorem choose_backend_fst_of_ok (pool : BackendPool) (qm : List (Str × Nat))
    (req : Request) (port : Nat) (h : (get_port qm req).1 = .ok port) :
    (choose_backend pool qm req).1 =
      (match poolLookup pool (str "127.0.0.1:" ++ natStr port) with
       | none => .error (.UnknownHost (str "127.0.0.1:" ++ natStr port))
       | some health =>
         if health = Healthiness.Healthy
         then .ok (port, str "127.0.0.1:" ++ natStr port)
         else .error (.UnhealthyHost (str "127.0.0.1:" ++ natStr port))) := by
  unfold choose_backend
  rcases hg : get_port qm req with ⟨r, req'⟩
  rw [hg] at h
  simp only at h
  rw [h]
  rcases hl : poolLookup pool (str "127.0.0.1:" ++ natStr port) with _ | health
  · simp [hl]
  · by_cases hh : health = Healthiness.Healthy <;> simp [hl, hh]

theorem poolLookup_pool_from_config (addresses : List Str) (a : Str)
    (ha : a ∈ addresses) :
    poolLookup (pool_from_config addresses) a = some Healthiness.Healthy := by
  induction addresses with
  | nil => cases ha
  | cons b rest ih =>
    rcases List.mem_cons.mp ha with hb | hrest
    · simp [poolLookup, pool_from_config, List.find?, hb]
    · by_cases hba : b = a
      · simp [poolLookup, pool_from_config, List.find?, hba]
      · have := ih hrest
        simp only [poolLookup, pool_from_config, List.map, List.find?] at this ⊢
        have hbeq : (b == a) = false := by simpa using hba
        rw [hbeq]
        exact this

theorem get_port_internal (qm : List (Str × Nat)) (req : Request)
    (hp : req.path = str "/api/v1/events/internal") :
    get_port qm req =
      ((match headerGet req.headers (str "x-tornado-shard") with
        | none => .error (.BadRequest (str "No x-tornado-shard header"))
        | some v =>
          match headerToStr v with
          | none => .error (.BadRequest (str "Cannot convert header to string"))
          | some s =>
            match parseU16 s with
            | none => .error (.BadRequest (str "Failed to parse port as int"))
            | some p => .ok p), req) := by
  have hpb : (req.path == str "/api/v1/events/internal") = true := by simpa using hp
  unfold get_port
  simp only [hpb, if_true]
  rcases hh : headerGet req.headers (str "x-tornado-shard") with _ | v
  · rfl
  · rcases ht : headerToStr v with _ | s
    · simp [ht]
    · rcases hu : parseU16 s with _ | p <;> simp [ht, hu]

theorem get_port_fst_no_query (qm : List (Str × Nat)) (req : Request)
    (hp : req.path ≠ str "/api/v1/events/internal")
    (hm : req.method = .GET) (hq : req.query = none) :
    (get_port qm req).1 = .error (.BadRequest (str "No query string")) := by
  obtain ⟨method, path, query, headers, body⟩ := req
  simp only at hp hm hq ⊢
  subst hm
  subst hq
  have hpb : (path == str "/api/v1/events/internal") = false := by simpa using hp
  unfold get_port
  simp [hpb]

theorem get_port_fst_body_error (qm : List (Str × Nat)) (req : Request)
    (hp : req.path ≠ str "/api/v1/events/internal")
    (hm : req.method = .DELETE) (hb : req.body = .error ()) :
    (get_port qm req).1 = .error (.BadRequest (str "Failed to read request body")) := by
  obtain ⟨method, path, query, headers, body⟩ := req
  simp only at hp hm hb ⊢
  subst hm
  subst hb
  have hpb : (path == str "/api/v1/events/internal") = false := by simpa using hp
  unfold get_port
  simp [hpb, peekBodyNew]

theorem headerValues_append (hs1 hs2 : List (Str × Str)) (name : Str) :
    headerValues (hs1 ++ hs2) name = headerValues hs1 name ++ headerValues hs2 name := by
  simp [headerValues, List.filter_append]

theorem headerValues_eq_nil (hs : List (Str × Str)) (name : Str)
    (h : headerGet hs name = none) : headerValues hs name = [] := by
  rw [headerGet, Option.map_eq_none', List.find?_eq_none] at h
  rw [headerValues]
  have hf : hs.filter (fun p => p.1 == name) = [] := by
    rw [List.filter_eq_nil_iff]
    exact h
  rw [hf]
  rfl

theorem build_backend_request_headers (backend : Str) (req : Request) (ip : IpAddr) :
    (build_backend_request backend req ip).headers =
      req.headers ++ [(str "x-forwarded-for",
        append_forwarded_for (headerGet req.headers (str "x-forwarded-for"))
          (clientIpString ip))] := rfl

/-! ## Claims -/

/-- C4: `update_health` computes the candidate `Unresponsive(none)` when
the result is a transport error, `Healthy` when the status is 2xx, makes
no change at all when the status is 4xx and `strict` is false, and
`Unresponsive(some(status))` otherwise; it stores the candidate into the
cell (with the `Backend health change` log) iff the candidate differs by
value from the cell's current content, and leaves the cell untouched
when they are equal. -/
theorem c4_update_health_policy (result : CallResult) (current : Healthiness)
    (strict : Bool) :
    (result = .error () →
      update_health result current strict =
        (if current = .Unresponsive none then none else some (.Unresponsive none))) ∧
    (∀ s, result = .ok s → is_success s = true →
      update_health result current strict =
        (if current = .Healthy then none else some .Healthy)) ∧
    (∀ s, result = .ok s → is_client_error s = true → strict = false →
      update_health result current strict = none) ∧
    (∀ s, result = .ok s → is_success s = false →
      (is_client_error s = false ∨ strict = true) →
      update_health result current strict =
        (if current = .Unresponsive (some s) then none
         else some (.Unresponsive (some s)))) := by
  refine ⟨?_, ?_, ?_, ?_⟩
  · rintro rfl
    by_cases hc : current = .Unresponsive none <;> simp [update_health, hc]
  · rintro s rfl hs
    by_cases hc : current = .Healthy <;> simp [update_health, hs, hc]
  · rintro s rfl hce rfl
    have hce' : 400 ≤ s ∧ s < 500 := by simpa [is_client_error] using hce
    have hs : is_success s = false := by
      unfold is_success
      have h3 : ¬(s < 300) := by omega
      simp [h3]
    simp [update_health, hs, hce]
  · rintro s rfl hs hor
    rcases hor with hce | rfl
    · by_cases hc : current = .Unresponsive (some s) <;>
        simp [update_health, hs, hce, hc]
    · by_cases hc : current = .Unresponsive (some s) <;>
        simp [update_health, hs, hc]

theorem c4_update_health_policy_witness :
    update_health (.ok 503) Healthiness.Healthy false =
      some (Healthiness.Unresponsive (some 503)) := by
  have h := (c4_update_health_policy (.ok 503) Healthiness.Healthy false).2.2.2 503 rfl
    (by decide) (Or.inl (by decide))
  simpa using h

/-- C5: a 4xx observed on the request path (forwarder calls the policy
with `strict = false`) never changes the health cell, whereas a 4xx
observed by the probe loop (`strict = true`) stores
`Unresponsive(some status)` whenever that differs from the cell. -/
theorem c5_health_soft_landing (s : Nat) (current : Healthiness)
    (h4 : 400 ≤ s) (h5 : s < 500) :
    request_path_health_update (.ok s) current = none ∧
    probe_health_update (.ok s) current =
      (if current = .Unresponsive (some s) then none
       else some (.Unresponsive (some s))) := by
  have hce : is_client_error s = true := by
    simp only [is_client_error, Bool.and_eq_true, decide_eq_true_eq]
    exact ⟨h4, h5⟩
  have hs : is_success s = false := by
    unfold is_success
    have h3 : ¬(s < 300) := by omega
    simp [h3]
  constructor
  · simp [request_path_health_update, update_health, hs, hce]
  · by_cases hc : current = .Unresponsive (some s) <;>
      simp [probe_health_update, update_health, hs, hce, hc]

theorem c5_health_soft_landing_witness :
    request_path_health_update (.ok 404) Healthiness.Healthy = none ∧
    probe_health_update (.ok 404) Healthiness.Healthy =
      some (Healthiness.Unresponsive (some 404)) := by
  have h := c5_health_soft_landing 404 Healthiness.Healthy (by decide) (by decide)
  exact ⟨h.1, by simpa using h.2⟩

/-- C2: `store_backend` inserts `queue_id → port` on a 2xx response with
an ASCII-decodable `x-tornado-queue-id` header for every non-DELETE
method, removes the queue id for DELETE, and leaves the routing map
unchanged in every other case (non-2xx, header missing, header not
ASCII-decodable). -/
theorem c2_store_backend_policy (m : List (Str × Nat)) (method : Method)
    (resp : BackendResponse) (port : Nat) :
    (is_success resp.status = false → store_backend m method resp port = some m) ∧
    (headerGet resp.headers (str "x-tornado-queue-id") = none →
      store_backend m method resp port = some m) ∧
    (∀ v, headerGet resp.headers (str "x-tornado-queue-id") = some v →
      headerToStr v = none → store_backend m method resp port = some m) ∧
    (∀ v qid, is_success resp.status = true →
      headerGet resp.headers (str "x-tornado-queue-id") = some v →
      headerToStr v = some qid →
      (method = .DELETE → mapContains m qid = true →
        store_backend m method resp port = some (mapErase m qid)) ∧
      (method ≠ .DELETE →
        store_backend m method resp port = some (mapInsert m qid port))) := by
  refine ⟨?_, ?_, ?_, ?_⟩
  · intro hs
    simp [store_backend, hs]
  · intro hh
    by_cases hs : is_success resp.status <;> simp [store_backend, hs, hh]
  · intro v hh ht
    by_cases hs : is_success resp.status <;> simp [store_backend, hs, hh, ht]
  · intro v qid hs hh ht
    constructor
    · rintro rfl hc
      simp [store_backend, hs, hh, ht, hc]
    · intro hm
      have hmd : (method == Method.DELETE) = false := by simpa using hm
      simp [store_backend, hs, hh, ht, hmd]

theorem c2_store_backend_policy_witness :
    store_backend [] Method.POST
      { status := 200, headers := [(str "x-tornado-queue-id", str "1500:1")] } 9801 =
      some (mapInsert [] (str "1500:1") 9801) :=
  ((c2_store_backend_policy [] Method.POST
      { status := 200, headers := [(str "x-tornado-queue-id", str "1500:1")] } 9801).2.2.2
    (str "1500:1") (str "1500:1") (by decide) (by decide) (by decide)).2 (by decide)

/-- C8: on a 2xx DELETE response with an ASCII-decodable
`x-tornado-queue-id` header, the removal is asserted to succeed: with
the entry present the call completes (returning the map without the
entry); with the entry absent the `unwrap` of the removal panics. -/
theorem c8_delete_removal_asserted (m : List (Str × Nat)) (resp : BackendResponse)
    (port : Nat) (v qid : Str)
    (hs : is_success resp.status = true)
    (hh : headerGet resp.headers (str "x-tornado-queue-id") = some v)
    (ht : headerToStr v = some qid) :
    (mapContains m qid = true →
      store_backend m Method.DELETE resp port = some (mapErase m qid)) ∧
    (mapContains m qid = false →
      store_backend m Method.DELETE resp port = none) := by
  constructor <;> intro hc <;> simp [store_backend, hs, hh, ht, hc]

theorem c8_delete_removal_asserted_witness :
    store_backend [(str "1500:1", 9801)] Method.DELETE
      { status := 200, headers := [(str "x-tornado-queue-id", str "1500:1")] } 9801 =
      some (mapErase [(str "1500:1", 9801)] (str "1500:1")) ∧
    store_backend [] Method.DELETE
      { status := 200, headers := [(str "x-tornado-queue-id", str "1500:1")] } 9801 =
      none :=
  ⟨(c8_delete_removal_asserted [(str "1500:1", 9801)]
      { status := 200, headers := [(str "x-tornado-queue-id", str "1500:1")] } 9801
      (str "1500:1") (str "1500:1") (by decide) (by decide) (by decide)).1 (by decide),
   (c8_delete_removal_asserted []
      { status := 200, headers := [(str "x-tornado-queue-id", str "1500:1")] } 9801
      (str "1500:1") (str "1500:1") (by decide) (by decide) (by decide)).2 (by decide)⟩

/-- C7: resolution failure `UnknownQueue(q)` is answered with the 400
JSON response of `bad_queue` (Content-Type `application/json`, body the
JSON object
`{"result":"error","msg":"Bad event queue_id: <q>","queue_id":"<q>","code":"BAD_EVENT_QUEUE_ID"}`);
every other `BadBackendError` variant is logged and answered with the
empty-body 502 of `bad_gateway`. -/
theorem c7_error_classification (e : BadBackendError) :
    (∀ q, e = .UnknownQueue q →
      backend_error_response e = bad_queue q ∧
      (bad_queue q).status = 400 ∧
      (bad_queue q).headers = [(str "Content-Type", str "application/json")] ∧
      (bad_queue q).body = .json
        [(str "result", str "error"),
         (str "msg", str "Bad event queue_id: " ++ q),
         (str "queue_id", q),
         (str "code", str "BAD_EVENT_QUEUE_ID")]) ∧
    (isUnknownQueue e = false →
      backend_error_response e = bad_gateway ∧
      bad_gateway.status = 502 ∧ bad_gateway.body = .empty) := by
  constructor
  · rintro q rfl
    exact ⟨rfl, rfl, rfl, rfl⟩
  · intro hq
    refine ⟨?_, rfl, rfl⟩
    cases e <;> simp_all [backend_error_response, isUnknownQueue]

theorem c7_error_classification_witness :
    backend_error_response (.UnknownQueue (str "unknown")) = bad_queue (str "unknown") ∧
    backend_error_response (.UnhealthyHost (str "127.0.0.1:9801")) = bad_gateway :=
  ⟨((c7_error_classification (.UnknownQueue (str "unknown"))).1 (str "unknown") rfl).1,
   ((c7_error_classification (.UnhealthyHost (str "127.0.0.1:9801"))).2 (by decide)).1⟩

/-- C10: building the pool from the configuration initializes every
backend's health cell to `Healthy`, so before any probe or forwarded
request completes the resolver treats every configured backend as
healthy and routes to it. -/
theorem c10_pool_initially_healthy (addresses : List Str) :
    (∀ a, a ∈ addresses →
      poolLookup (pool_from_config addresses) a = some Healthiness.Healthy) ∧
    (∀ qm req port, (get_port qm req).1 = .ok port →
      (str "127.0.0.1:" ++ natStr port) ∈ addresses →
      (choose_backend (pool_from_config addresses) qm req).1 =
        .ok (port, str "127.0.0.1:" ++ natStr port)) := by
  constructor
  · exact fun a ha => poolLookup_pool_from_config addresses a ha
  · intro qm req port hport hmem
    have hl := poolLookup_pool_from_config addresses _ hmem
    rw [choose_backend_fst_of_ok _ _ _ _ hport]
    simp [hl]

theorem c10_pool_initially_healthy_witness :
    poolLookup (pool_from_config [str "127.0.0.1:9801"]) (str "127.0.0.1:9801") =
      some Healthiness.Healthy ∧
    (choose_backend (pool_from_config [str "127.0.0.1:9801"]) [(str "abc", 9801)]
      { method := .GET, path := str "/x", query := some (str "queue_id=abc"),
        headers := [], body := .ok [] }).1 =
      .ok (9801, str "127.0.0.1:" ++ natStr 9801) :=
  ⟨(c10_pool_initially_healthy [str "127.0.0.1:9801"]).1 (str "127.0.0.1:9801") (by decide),
   (c10_pool_initially_healthy [str "127.0.0.1:9801"]).2 [(str "abc", 9801)]
     { method := .GET, path := str "/x", query := some (str "queue_id=abc"),
       headers := [], body := .ok [] } 9801 (by decide) (by decide)⟩

/-- C3: on the exact path `/api/v1/events/internal` the resolver parses
the port from the `x-tornado-shard` header as a strict 16-bit unsigned
integer (`"0"` is valid), consults neither the routing map nor the
request method, and reports the three header failures with the exact
`BadRequest` messages. -/
theorem c3_internal_path_shard (qm qm' : List (Str × Nat)) (req : Request)
    (m' : Method) (hp : req.path = str "/api/v1/events/internal") :
    ((get_port qm req).1 = (get_port qm' req).1) ∧
    ((get_port qm { req with method := m' }).1 = (get_port qm req).1) ∧
    (headerGet req.headers (str "x-tornado-shard") = none →
      (get_port qm req).1 = .error (.BadRequest (str "No x-tornado-shard header"))) ∧
    (∀ v, headerGet req.headers (str "x-tornado-shard") = some v →
      (headerToStr v = none →
        (get_port qm req).1 =
          .error (.BadRequest (str "Cannot convert header to string"))) ∧
      (∀ s, headerToStr v = some s →
        (parseU16 s = none →
          (get_port qm req).1 =
            .error (.BadRequest (str "Failed to parse port as int"))) ∧
        (∀ p, parseU16 s = some p →
          (get_port qm req).1 = .ok p ∧ p < 65536))) := by
  have h1 := get_port_internal qm req hp
  have h2 := get_port_internal qm' req hp
  have h3 := get_port_internal qm { req with method := m' } hp
  refine ⟨?_, ?_, ?_, ?_⟩
  · rw [h1, h2]
  · rw [h1, h3]
  · intro hh
    rw [h1]
    simp [hh]
  · intro v hh
    refine ⟨?_, ?_⟩
    · intro ht
      rw [h1]
      simp [hh, ht]
    · intro s ht
      refine ⟨?_, ?_⟩
      · intro hu
        rw [h1]
        simp [hh, ht, hu]
      · intro p hu
        refine ⟨?_, parseU16_lt s p hu⟩
        rw [h1]
        simp [hh, ht, hu]

/-- The create-queue request used to witness C3. -/
def c3req : Request :=
  { method := .POST, path := str "/api/v1/events/internal",
    query := none, headers := [(str "x-tornado-shard", str "0")],
    body := .ok [] }

theorem c3_internal_path_shard_witness :
    (get_port [] c3req).1 = .ok 0 ∧ (0 : Nat) < 65536 :=
  (((c3_internal_path_shard [] [] c3req Method.POST rfl).2.2.2
      (str "0") (by decide)).2 (str "0") (by decide)).2 0 (by decide)

/-- C1: for every request off the internal path, the resolver rejects
methods other than GET and DELETE with `BadRequest("Unknown method
<method>")`, a GET without query string with `BadRequest("No query
string")`, and otherwise searches the extracted bytes (peeked body for
DELETE, raw query for GET) for the first `queue_id` form pair, answering
`UnknownQueue("(missing)")`, `UnknownQueue(<queue_id>)`,
`UnknownHost(<address>)`, `UnhealthyHost(<address>)` or
`Ok((port, "127.0.0.1:<port>"))` according to the routing map and the
pool's health cell. -/
theorem c1_resolver_existing_queue (pool : BackendPool) (qm : List (Str × Nat))
    (req : Request) (hp : req.path ≠ str "/api/v1/events/internal") :
    (req.method ≠ .GET → req.method ≠ .DELETE →
      (choose_backend pool qm req).1 =
        .error (.BadRequest (str "Unknown method " ++ methodStr req.method))) ∧
    (req.method = .GET → req.query = none →
      (choose_backend pool qm req).1 = .error (.BadRequest (str "No query string"))) ∧
    (∀ bytes, extractedBytes req = some bytes →
      (firstQueueId bytes = none →
        (choose_backend pool qm req).1 = .error (.UnknownQueue (str "(missing)"))) ∧
      (∀ qid, firstQueueId bytes = some qid →
        (mapLookup qm qid = none →
          (choose_backend pool qm req).1 = .error (.UnknownQueue qid)) ∧
        (∀ port, mapLookup qm qid = some port →
          (poolLookup pool (str "127.0.0.1:" ++ natStr port) = none →
            (choose_backend pool qm req).1 =
              .error (.UnknownHost (str "127.0.0.1:" ++ natStr port))) ∧
          (∀ h, poolLookup pool (str "127.0.0.1:" ++ natStr port) = some h →
            h ≠ Healthiness.Healthy →
            (choose_backend pool qm req).1 =
              .error (.UnhealthyHost (str "127.0.0.1:" ++ natStr port))) ∧
          (poolLookup pool (str "127.0.0.1:" ++ natStr port) = some Healthiness.Healthy →
            (choose_backend pool qm req).1 =
              .ok (port, str "127.0.0.1:" ++ natStr port))))) := by
  refine ⟨?_, ?_, ?_⟩
  · intro hg hd
    exact choose_backend_fst_of_error _ _ _ _ (get_port_fst_unknown_method qm req hp hg hd)
  · intro hg hq
    exact choose_backend_fst_of_error _ _ _ _ (get_port_fst_no_query qm req hp hg hq)
  · intro bytes hb
    have hgp : (get_port qm req).1 = findQueuePort qm bytes := by
      rw [get_port_fst_existing qm req hp bytes hb]
    refine ⟨?_, ?_⟩
    · intro hq
      apply choose_backend_fst_of_error
      rw [hgp, findQueuePort_eq_of_firstQueueId_none qm bytes hq]
    · intro qid hq
      have hfq := findQueuePort_eq_of_firstQueueId_some qm bytes qid hq
      refine ⟨?_, ?_⟩
      · intro hl
        apply choose_backend_fst_of_error
        rw [hgp, hfq, hl]
      · intro port hl
        have hok : (get_port qm req).1 = .ok port := by rw [hgp, hfq, hl]
        have hcb := choose_backend_fst_of_ok pool qm req port hok
        refine ⟨?_, ?_, ?_⟩
        · intro hpl
          rw [hcb, hpl]
        · intro h hpl hh
          rw [hcb, hpl]
          simp [hh]
        · intro hpl
          rw [hcb, hpl]
          simp

theorem c1_resolver_existing_queue_witness :
    (choose_backend ⟨[(str "127.0.0.1:" ++ natStr 9801, Healthiness.Healthy)]⟩
      [(str "abc", 9801)]
      { method := .GET, path := str "/api/v1/events",
        query := some (str "queue_id=abc"), headers := [], body := .ok [] }).1 =
      .ok (9801, str "127.0.0.1:" ++ natStr 9801) :=
  ((((c1_resolver_existing_queue
      ⟨[(str "127.0.0.1:" ++ natStr 9801, Healthiness.Healthy)]⟩
      [(str "abc", 9801)]
      { method := .GET, path := str "/api/v1/events",
        query := some (str "queue_id=abc"), headers := [], body := .ok [] }
      (by decide)).2.2 (str "queue_id=abc") (by decide)).2
      (str "abc") (by decide)).2 9801 (by decide)).2.2 (by decide)

/-- C6: on the existing-queue DELETE path, body-peek drains the body and
every exit of `get_port` (including the error exits of the downstream
inspection) leaves the request with a body yielding exactly the drained
bytes, which are the bytes the forwarder then sends upstream; a failed
drain yields `BadRequest("Failed to read request body")`. -/
theorem c6_body_peek_restores (qm : List (Str × Nat)) (req : Request)
    (hp : req.path ≠ str "/api/v1/events/internal")
    (hm : req.method = .DELETE) :
    (∀ bs, req.body = .ok bs →
      (get_port qm req).2 = { req with body := .ok bs } ∧
      (∀ backend ip,
        (build_backend_request backend (get_port qm req).2 ip).body = .ok bs)) ∧
    (req.body = .error () →
      (get_port qm req).1 = .error (.BadRequest (str "Failed to read request body"))) := by
  constructor
  · intro bs hb
    have hbytes : extractedBytes req = some bs := by
      simp [extractedBytes, hm, hb]
    have h := get_port_fst_existing qm req hp bs hbytes
    constructor
    · rw [h]
      simp [hm]
    · intro backend ip
      rw [h]
      simp [build_backend_request, hm]
  · intro hb
    exact get_port_fst_body_error qm req hp hm hb

/-- The DELETE request used to witness C6 (its queue id is absent from
the routing map, so the witness also exercises the error exit path). -/
def c6req : Request :=
  { method := .DELETE, path := str "/api/v1/events",
    query := none, headers := [], body := .ok (str "queue_id=zzz") }

theorem c6_body_peek_restores_witness :
    (get_port [] c6req).2 = c6req :=
  ((c6_body_peek_restores [] c6req (by decide) rfl).1 (str "queue_id=zzz") rfl).1

/-- A concrete incoming request carrying an `x-forwarded-for` header,
used to exhibit the forwarder's header behaviour. -/
def c9req : Request :=
  { method := .GET, path := str "/api/v1/events",
    query := some (str "queue_id=abc"),
    headers := [(str "x-forwarded-for", str "1.2.3.4")],
    body := .ok [] }

/-- C9 counterexample: with an incoming `x-forwarded-for: 1.2.3.4` and
client `9.9.9.9`, the outgoing request's `x-forwarded-for` is *not* the
single combined value the claim states: the original header is retained
(and is what `get` returns) and the combined value is appended as a
second `x-forwarded-for` header (`Builder::header` appends rather than
replaces). -/
theorem c9_counterexample :
    headerValues (build_backend_request (str "127.0.0.1:9801") c9req
        (.V4 9 9 9 9)).headers (str "x-forwarded-for") ≠
      [str "1.2.3.4, 9.9.9.9"] ∧
    headerValues (build_backend_request (str "127.0.0.1:9801") c9req
        (.V4 9 9 9 9)).headers (str "x-forwarded-for") =
      [str "1.2.3.4", str "1.2.3.4, 9.9.9.9"] ∧
    headerGet (build_backend_request (str "127.0.0.1:9801") c9req
        (.V4 9 9 9 9)).headers (str "x-forwarded-for") =
      some (str "1.2.3.4") := by
  refine ⟨by decide, by decide, by decide⟩

/-- C9 (amended): the outgoing request carries every original header
unchanged and *additionally appends* an `x-forwarded-for` header whose
value is `<existing>, <client-ip>` when the incoming request carried one
(which is then retained alongside) and `<client-ip>` when it did not;
method, body and path-and-query are copied, the scheme is `http`, the
authority is the backend address, and an IPv4 or v4-mapped (also
v4-compatible, via `to_ipv4`) IPv6 peer prints in IPv4 dotted form. -/
theorem c9_forwarded_request (backend : Str) (req : Request) (ip : IpAddr) :
    (∀ existing, headerGet req.headers (str "x-forwarded-for") = some existing →
      headerToStr existing = some existing →
      headerValues (build_backend_request backend req ip).headers
          (str "x-forwarded-for") =
        headerValues req.headers (str "x-forwarded-for")
          ++ [existing ++ str ", " ++ clientIpString ip]) ∧
    (headerGet req.headers (str "x-forwarded-for") = none →
      headerValues (build_backend_request backend req ip).headers
          (str "x-forwarded-for") = [clientIpString ip]) ∧
    (∀ name, name ≠ str "x-forwarded-for" →
      headerValues (build_backend_request backend req ip).headers name =
        headerValues req.headers name) ∧
    (build_backend_request backend req ip).method = req.method ∧
    (build_backend_request backend req ip).body = req.body ∧
    (build_backend_request backend req ip).scheme = str "http" ∧
    (build_backend_request backend req ip).authority = backend ∧
    (build_backend_request backend req ip).pathAndQuery = pathAndQuery req ∧
    (∀ a b c d, clientIpString (.V4 a b c d) = ipv4String a b c d) ∧
    (∀ ab cd, clientIpString (.V6 0 0 0 0 0 65535 ab cd) =
      ipv4String (ab / 256) (ab % 256) (cd / 256) (cd % 256)) := by
  refine ⟨?_, ?_, ?_, rfl, rfl, rfl, rfl, rfl, fun a b c d => rfl, ?_⟩
  · intro existing hh ht
    rw [build_backend_request_headers, headerValues_append]
    congr 1
    simp [headerValues, append_forwarded_for, hh, ht]
  · intro hh
    rw [build_backend_request_headers, headerValues_append,
      headerValues_eq_nil req.headers _ hh]
    simp [headerValues, append_forwarded_for, hh]
  · intro name hn
    rw [build_backend_request_headers, headerValues_append]
    have hne : ¬(str "x-forwarded-for" = name) := fun h => hn h.symm
    simp [headerValues, hne]
  · intro ab cd
    simp [clientIpString, v6ToIpv4]

theorem c9_forwarded_request_witness :
    headerValues (build_backend_request (str "127.0.0.1:9801") c9req
        (.V4 9 9 9 9)).headers (str "x-forwarded-for") =
      headerValues c9req.headers (str "x-forwarded-for")
        ++ [str "1.2.3.4" ++ str ", " ++ clientIpString (.V4 9 9 9 9)] :=
  (c9_forwarded_request (str "127.0.0.1:9801") c9req (.V4 9 9 9 9)).1
    (str "1.2.3.4") (by decide) (by decide)

end Kansas
